import Mathlib

/-!
Shallow embedding of the Model Gateway Client of the Mobile-AI repository.

The embedded code comes from two places:
  - `src/deepseek-python-mobile.py`, class `DeepSeekAPI`
    (`check_connection`, `generate_response` and its inline context builder);
  - `src/github_project_structure.py`, the `OllamaClient` class contained in
    the `OLLAMA_CLIENT_CODE` source text (lines 1292-1498): `check_connection`,
    `list_models`, `pull_model`, `generate_response`, `chat`, `get_model_info`.

The HTTP exchange is modelled by an explicit transport outcome passed to each
operation: `success status text body` is a completed HTTP reply (with `text`
the raw body used by the error branches and `body` the parsed JSON used by the
200 branches), `timeout` is a raised requests.exceptions.Timeout, and `fault`
is any other exception raised inside the try block (refused connection, DNS
failure, JSON decode error on a 200 body, missing dict key, ...).  Every
Python `except` handler becomes an explicit equation of the embedded function.
-/

namespace MobileAI

/-- Transport outcome of one HTTP exchange, as observed by the client code:
either a completed reply, a raised timeout, or any other raised exception. -/
inductive Outcome (β : Type) where
  | success (status : Nat) (text : String) (body : β)
  | timeout (msg : String)
  | fault (msg : String)

/-- Parsed JSON body of a generate reply: optional `response` and
`eval_duration` fields. -/
structure GenBody where
  response : Option String
  eval_duration : Option Nat

/-- Parsed JSON body of a chat reply: the `message.content` field when both
levels are present (`result.get('message', {}).get('content', ...)` treats a
missing `message` and a missing `content` identically). -/
structure ChatBody where
  message_content : Option String

/-- Error taxonomy of the specification. -/
inductive ErrorKind where
  | connectionError
  | timeoutError
  | serverError
deriving DecidableEq

/-- Classification of a result string by the failure markers the OllamaClient
source itself prefixes its failure strings with: the cross mark for HTTP
status failures, the stopwatch for timeouts, the plug for connection faults.
A string starting with none of them carries no failure classification. -/
def resultKind (s : String) : Option ErrorKind :=
  match s.data.head? with
  | none => none
  | some c =>
    if c = '❌' then some ErrorKind.serverError
    else if c = '⏱' then some ErrorKind.timeoutError
    else if c = '🔌' then some ErrorKind.connectionError
    else none

/-- Python str.strip() with no argument: remove leading and trailing
whitespace, embedded on the character list so that it evaluates by kernel
reduction. -/
def strip (s : String) : String :=
  ⟨((s.data.dropWhile Char.isWhitespace).reverse.dropWhile
      Char.isWhitespace).reverse⟩

/-- One conversation message as the Python code sees it: a dict with `role`
and `content` string entries. -/
structure Msg where
  role : String
  content : String
deriving DecidableEq

namespace DeepSeekAPI

/-- Mutable fields of a `DeepSeekAPI` instance (the requests session object
is not modelled; it carries no state the embedded operations read). -/
structure State where
  base_url : String
  model_name : String
  is_connected : Bool
deriving DecidableEq

/-- State of a freshly constructed `DeepSeekAPI()`. -/
def initState : State :=
  { base_url := "http://localhost:11434", model_name := "deepseek-r1",
    is_connected := false }

/-- `DeepSeekAPI.check_connection` (deepseek-python-mobile.py lines 43-55).
On a 200 reply it parses the model names, stores the membership test in
`self.is_connected` and returns it; on a non-200 reply it falls off the end
of the `try` block, returning Python `None` (modelled as `none`) with the
state untouched; on any raised exception it stores and returns `False`.
The reply body is modelled as the list of model names. -/
def check_connection (s : State) (o : Outcome (List String)) :
    State × Option Bool :=
  match o with
  | .success status _ names =>
    if status == 200 then
      let conn := names.contains s.model_name
      ({ s with is_connected := conn }, some conn)
    else
      (s, none)
  | .timeout _ => ({ s with is_connected := false }, some false)
  | .fault _ => ({ s with is_connected := false }, some false)

/-- Role labelling of one context message (line 64-65): `Human:` for role
`user`, `Assistant:` otherwise. -/
def label (m : Msg) : String :=
  if m.role == "user" then "Human: " ++ m.content
  else "Assistant: " ++ m.content

/-- Context assembly inside `generate_response` (lines 60-68): with a
non-empty context, join the role-labelled last ten messages
(`context[-10:]`, embedded as dropping all but the last ten) with newlines
and append the new user turn and the open assistant marker; with an empty
(or absent) context the prompt is sent bare. -/
def build_full_prompt (prompt : String) (context : List Msg) : String :=
  if context.isEmpty then prompt
  else
    let conversation :=
      String.intercalate "\n" ((context.drop (context.length - 10)).map label)
    conversation ++ "\nHuman: " ++ prompt ++ "\nAssistant:"

/-- Outcome classification of `DeepSeekAPI.generate_response`
(lines 81-94): 200 replies yield the trimmed `response` field (default the
empty string), non-200 replies yield an `Error: HTTP <status>` string, and
every raised exception - timeouts included, there is no dedicated timeout
handler - yields `Error generating response: <detail>`. -/
def generate_response (context : List Msg) (prompt : String)
    (o : Outcome GenBody) : String :=
  match o with
  | .success status _ body =>
    if status == 200 then strip (body.response.getD "")
    else "Error: HTTP " ++ toString status
  | .timeout m => "Error generating response: " ++ m
  | .fault m => "Error generating response: " ++ m

end DeepSeekAPI

namespace OllamaClient

/-- `OllamaClient.check_connection` (github_project_structure.py lines
1301-1313): true exactly on a completed status-200 reply, false on any other
status and on any raised exception. The body is never inspected. -/
def check_connection (o : Outcome β) : Bool :=
  match o with
  | .success status _ _ => status == 200
  | .timeout _ => false
  | .fault _ => false

/-- `OllamaClient.list_models` (lines 1315-1331): the parsed body on a 200
reply, `None` on any other status and on any raised exception. -/
def list_models (o : Outcome β) : Option β :=
  match o with
  | .success status _ body => if status == 200 then some body else none
  | .timeout _ => none
  | .fault _ => none

/-- One line of the streamed pull body, as the loop in `pull_model` sees it:
an empty line (skipped by `if line:`), a line that raises
json.JSONDecodeError (skipped by the inner handler), a line that decodes to
a non-dict JSON value (on which `data.get` raises AttributeError, which the
inner handler does not catch), or a decoded object with an optional string
`status` field. -/
inductive Line where
  | empty
  | malformed
  | nonObject
  | obj (status : Option String)
deriving DecidableEq

/-- The streaming loop of `pull_model` (lines 1357-1364): the statuses
logged in emission order, paired with whether the loop ran to completion
(false once a non-dict line raises). An object line logs its status exactly
when `data.get('status')` is truthy, i.e. present and non-empty. -/
def process_lines : List Line → List String × Bool
  | [] => ([], true)
  | .empty :: rest => process_lines rest
  | .malformed :: rest => process_lines rest
  | .nonObject :: _ => ([], false)
  | .obj none :: rest => process_lines rest
  | .obj (some s) :: rest =>
    if s == "" then process_lines rest
    else
      let r := process_lines rest
      (s :: r.1, r.2)

/-- Transport outcome of a pull: a reply whose streamed body delivered the
given lines (`interrupted` marks a transport fault raised by the stream
iterator after those lines), or an exception raised before any reply. -/
inductive PullOutcome where
  | resp (status : Nat) (lines : List Line) (interrupted : Bool)
  | fault (msg : String)

/-- `OllamaClient.pull_model` (lines 1333-1374), returning the logged
progress statuses and the final boolean. On a 200 reply the stream is
consumed; the result is true only when the whole stream processed without a
raised fault. Any other status, and any raised exception, yields false; a
non-200 reply logs no status. -/
def pull_model (o : PullOutcome) : List String × Bool :=
  match o with
  | .resp status lines interrupted =>
    if status == 200 then
      let r := process_lines lines
      if r.2 then (r.1, !interrupted) else (r.1, false)
    else ([], false)
  | .fault _ => ([], false)

/-- `OllamaClient.generate_response` (lines 1376-1432): the `response`
field (default `No response generated`, returned verbatim, untrimmed) on a
200 reply; a cross-marked `Error: Generation failed: <status> - <text>`
string on any other status; a stopwatch-marked fixed message on a raised
timeout (handled by its own except branch); a plug-marked
`Connection error: <detail>` string on any other raised exception. -/
def generate_response (prompt : String) (o : Outcome GenBody) : String :=
  match o with
  | .success status text body =>
    if status == 200 then body.response.getD "No response generated"
    else "❌ Error: Generation failed: " ++ toString status ++ " - " ++ text
  | .timeout _ =>
    "⏱️ Request timed out. The model might be processing a complex query."
  | .fault m => "🔌 Connection error: " ++ m

/-- `OllamaClient.chat` (lines 1434-1470): the `message.content` field
(default `No response generated`) on a 200 reply; a cross-marked
`Chat error: <status> - <text>` string on any other status; a plug-marked
`Chat connection error: <detail>` string on any raised exception - there is
no dedicated timeout handler, so a raised timeout lands in the same branch. -/
def chat (messages : List Msg) (o : Outcome ChatBody) : String :=
  match o with
  | .success status text body =>
    if status == 200 then body.message_content.getD "No response generated"
    else "❌ Chat error: " ++ toString status ++ " - " ++ text
  | .timeout m => "🔌 Chat connection error: " ++ m
  | .fault m => "🔌 Chat connection error: " ++ m

/-- `OllamaClient.get_model_info` (lines 1472-1498): the parsed body on a
200 reply, `None` on any other status and on any raised exception. -/
def get_model_info (o : Outcome β) : Option β :=
  match o with
  | .success status _ body => if status == 200 then some body else none
  | .timeout _ => none
  | .fault _ => none

end OllamaClient

/-! Helper lemmas shared by the claim theorems. -/

lemma head?_append (s t : String) (c : Char) (h : s.data.head? = some c) :
    (s ++ t).data.head? = some c := by
  have e : (s ++ t).data = s.data ++ t.data := rfl
  rw [e]
  cases hd : s.data with
  | nil => rw [hd] at h; simp at h
  | cons a l =>
    rw [hd] at h
    injection h with h
    subst h
    rfl

lemma resultKind_of_head (s : String) (c : Char) (h : s.data.head? = some c) :
    resultKind s =
      if c = '❌' then some ErrorKind.serverError
      else if c = '⏱' then some ErrorKind.timeoutError
      else if c = '🔌' then some ErrorKind.connectionError
      else none := by
  unfold resultKind
  rw [h]

lemma resultKind_gen_server (st : Nat) (text : String) :
    resultKind ("❌ Error: Generation failed: " ++ toString st ++ " - " ++ text) =
      some ErrorKind.serverError := by
  have h0 : ("❌ Error: Generation failed: ").data.head? = some '❌' := rfl
  have h3 := head?_append _ text _ (head?_append _ " - " _
    (head?_append _ (toString st) _ h0))
  rw [resultKind_of_head _ _ h3]
  decide

lemma resultKind_chat_server (st : Nat) (text : String) :
    resultKind ("❌ Chat error: " ++ toString st ++ " - " ++ text) =
      some ErrorKind.serverError := by
  have h0 : ("❌ Chat error: ").data.head? = some '❌' := rfl
  have h3 := head?_append _ text _ (head?_append _ " - " _
    (head?_append _ (toString st) _ h0))
  rw [resultKind_of_head _ _ h3]
  decide

lemma resultKind_conn (m : String) :
    resultKind ("🔌 Connection error: " ++ m) = some ErrorKind.connectionError := by
  have h0 : ("🔌 Connection error: ").data.head? = some '🔌' := rfl
  rw [resultKind_of_head _ _ (head?_append _ m _ h0)]
  decide

lemma resultKind_chat_conn (m : String) :
    resultKind ("🔌 Chat connection error: " ++ m) =
      some ErrorKind.connectionError := by
  have h0 : ("🔌 Chat connection error: ").data.head? = some '🔌' := rfl
  rw [resultKind_of_head _ _ (head?_append _ m _ h0)]
  decide

/-! Claim theorems. -/

/-- Claim C1 (bug evaluation): on a non-2xx health-check reply,
`DeepSeekAPI.check_connection` falls off the end of its try block and
returns Python `None` (embedded as `none`), not the boolean `False` its
own `-> bool` annotation promises; the claim's required `false` is what
`OllamaClient.check_connection` returns, shown alongside. -/
theorem C1_non200_check_returns_none :
    (DeepSeekAPI.check_connection DeepSeekAPI.initState
        (Outcome.success 500 "" [])).2 = none ∧
    OllamaClient.check_connection (Outcome.success 500 "" ([] : List String)) =
      false :=
  ⟨rfl, rfl⟩

/-- Claim C2: every gateway operation of both clients maps every raised
transport fault (timeout or any other exception) - and, for the path that
returns no explicit value, a non-200 health reply - to a plain result value;
no exception path escapes unhandled. Each equation is one except-branch of
the source. -/
theorem C2_no_uncaught_fault :
    (∀ (s : DeepSeekAPI.State) (m : String),
        (DeepSeekAPI.check_connection s (Outcome.timeout m)).2 = some false ∧
        (DeepSeekAPI.check_connection s (Outcome.fault m)).2 = some false) ∧
    (∀ (s : DeepSeekAPI.State) (text : String) (names : List String),
        (DeepSeekAPI.check_connection s (Outcome.success 500 text names)).2 =
          none) ∧
    (∀ (ctx : List Msg) (p m : String),
        DeepSeekAPI.generate_response ctx p (Outcome.timeout m) =
          "Error generating response: " ++ m ∧
        DeepSeekAPI.generate_response ctx p (Outcome.fault m) =
          "Error generating response: " ++ m) ∧
    (∀ (β : Type) (m : String),
        OllamaClient.check_connection (Outcome.timeout m : Outcome β) = false ∧
        OllamaClient.check_connection (Outcome.fault m : Outcome β) = false ∧
        OllamaClient.list_models (Outcome.timeout m : Outcome β) = none ∧
        OllamaClient.list_models (Outcome.fault m : Outcome β) = none ∧
        OllamaClient.get_model_info (Outcome.timeout m : Outcome β) = none ∧
        OllamaClient.get_model_info (Outcome.fault m : Outcome β) = none) ∧
    (∀ (p m : String),
        OllamaClient.generate_response p (Outcome.timeout m) =
          "⏱️ Request timed out. The model might be processing a complex query." ∧
        OllamaClient.generate_response p (Outcome.fault m) =
          "🔌 Connection error: " ++ m) ∧
    (∀ (msgs : List Msg) (m : String),
        OllamaClient.chat msgs (Outcome.timeout m) =
          "🔌 Chat connection error: " ++ m ∧
        OllamaClient.chat msgs (Outcome.fault m) =
          "🔌 Chat connection error: " ++ m) ∧
    (∀ (m : String),
        OllamaClient.pull_model (OllamaClient.PullOutcome.fault m) =
          ([], false)) := by
  exact ⟨fun s m => ⟨rfl, rfl⟩, fun s t n => rfl, fun c p m => ⟨rfl, rfl⟩,
    fun β m => ⟨rfl, rfl, rfl, rfl, rfl, rfl⟩, fun p m => ⟨rfl, rfl⟩,
    fun ms m => ⟨rfl, rfl⟩, fun m => rfl⟩

/-- Claim C3: for a history of more than 10 messages, the built generation
context is exactly the role-labelled last-10 suffix of the history joined in
original order, followed by the new user turn and the open assistant marker;
the suffix has length exactly 10 and the remaining (older) messages are the
ones dropped in front of it. -/
theorem C3_context_window (h : List Msg) (p : String) (hl : 10 < h.length) :
    DeepSeekAPI.build_full_prompt p h =
      String.intercalate "\n"
          ((h.drop (h.length - 10)).map DeepSeekAPI.label) ++
        "\nHuman: " ++ p ++ "\nAssistant:" ∧
    (h.drop (h.length - 10)).length = 10 ∧
    h.take (h.length - 10) ++ h.drop (h.length - 10) = h := by
  refine ⟨?_, ?_, List.take_append_drop _ _⟩
  · have hne : h.isEmpty = false := by
      cases h with
      | nil => simp at hl
      | cons a t => rfl
    simp [DeepSeekAPI.build_full_prompt, hne]
  · rw [List.length_drop]
    omega

/-- Witness for C3 at a concrete 11-message history. -/
theorem C3_context_window_witness :
    10 < (List.replicate 11 (Msg.mk "user" "x")).length ∧
    (DeepSeekAPI.build_full_prompt "p" (List.replicate 11 (Msg.mk "user" "x")) =
      String.intercalate "\n"
          (((List.replicate 11 (Msg.mk "user" "x")).drop
              ((List.replicate 11 (Msg.mk "user" "x")).length - 10)).map
            DeepSeekAPI.label) ++
        "\nHuman: " ++ "p" ++ "\nAssistant:" ∧
    ((List.replicate 11 (Msg.mk "user" "x")).drop
        ((List.replicate 11 (Msg.mk "user" "x")).length - 10)).length = 10 ∧
    (List.replicate 11 (Msg.mk "user" "x")).take
          ((List.replicate 11 (Msg.mk "user" "x")).length - 10) ++
        (List.replicate 11 (Msg.mk "user" "x")).drop
          ((List.replicate 11 (Msg.mk "user" "x")).length - 10) =
      List.replicate 11 (Msg.mk "user" "x")) :=
  ⟨by decide,
    C3_context_window (List.replicate 11 (Msg.mk "user" "x")) "p" (by decide)⟩

/-- Claim C4 (counterexample): `OllamaClient.generate_response` on a 200
reply whose body carries `response = " Hi there "` returns the field
verbatim, which is not the trimmed text `"Hi there"` the claim requires. -/
theorem C4_counterexample :
    OllamaClient.generate_response "hello"
        (Outcome.success 200 "" ⟨some " Hi there ", none⟩) = " Hi there " ∧
    " Hi there " ≠ "Hi there" :=
  ⟨rfl, by decide⟩

/-- Claim C4 (amended): on a 200 reply with a `response` field,
`DeepSeekAPI.generate_response` returns the field with leading and trailing
whitespace trimmed, while `OllamaClient.generate_response` returns the field
verbatim, untrimmed. -/
theorem C4_trim_behavior :
    (∀ (ctx : List Msg) (p text resp : String) (dur : Option Nat),
        DeepSeekAPI.generate_response ctx p
            (Outcome.success 200 text ⟨some resp, dur⟩) = strip resp) ∧
    DeepSeekAPI.generate_response [] "hello"
        (Outcome.success 200 "" ⟨some " Hi there ", none⟩) = "Hi there" ∧
    (∀ (p text resp : String) (dur : Option Nat),
        OllamaClient.generate_response p
            (Outcome.success 200 text ⟨some resp, dur⟩) = resp) := by
  exact ⟨fun ctx p text resp dur => rfl, by decide, fun p text resp dur => rfl⟩

/-- Claim C5 (counterexample): `DeepSeekAPI.generate_response` maps a raised
timeout and a raised connection fault with the same detail to the very same
result string, so its timeout result carries no Timeout kind distinguished
from ConnectionError; the string also carries none of the failure markers of
the specification's taxonomy. -/
theorem C5_counterexample :
    DeepSeekAPI.generate_response [] "hello" (Outcome.timeout "boom") =
      DeepSeekAPI.generate_response [] "hello" (Outcome.fault "boom") ∧
    resultKind (DeepSeekAPI.generate_response [] "hello"
        (Outcome.timeout "boom")) = none :=
  ⟨rfl, by decide⟩

/-- Claim C5 (amended): `OllamaClient.generate_response` returns a
Timeout-classified failure on a raised timeout, distinguished from the
ConnectionError classification of other transport faults and from the
ServerError classification of non-200 replies; `DeepSeekAPI.generate_response`
maps a raised timeout to the same generic fault string as any other raised
transport fault. -/
theorem C5_timeout_classification :
    (∀ (p m : String),
        resultKind (OllamaClient.generate_response p (Outcome.timeout m)) =
          some ErrorKind.timeoutError) ∧
    (∀ (p m : String),
        resultKind (OllamaClient.generate_response p (Outcome.fault m)) =
          some ErrorKind.connectionError) ∧
    (∀ (p text : String) (st : Nat) (b : GenBody), st ≠ 200 →
        resultKind (OllamaClient.generate_response p
            (Outcome.success st text b)) = some ErrorKind.serverError) ∧
    (∀ (ctx : List Msg) (p m : String),
        DeepSeekAPI.generate_response ctx p (Outcome.timeout m) =
          DeepSeekAPI.generate_response ctx p (Outcome.fault m)) := by
  refine ⟨fun p m => by
      show resultKind
          "⏱️ Request timed out. The model might be processing a complex query." =
        some ErrorKind.timeoutError
      decide,
    fun p m => resultKind_conn m,
    fun p text st b h => ?_, fun ctx p m => rfl⟩
  have hb : (st == 200) = false := beq_eq_false_iff_ne.mpr h
  have he : OllamaClient.generate_response p (Outcome.success st text b) =
      "❌ Error: Generation failed: " ++ toString st ++ " - " ++ text := by
    simp [OllamaClient.generate_response, hb]
  rw [he, resultKind_gen_server]

/-- Witness for C5 at a concrete 500 reply. -/
theorem C5_timeout_classification_witness :
    (500 : Nat) ≠ 200 ∧
    resultKind (OllamaClient.generate_response "p"
        (Outcome.success 500 "boom" ⟨none, none⟩)) =
      some ErrorKind.serverError :=
  ⟨by decide,
    C5_timeout_classification.2.2.1 "p" "boom" 500 ⟨none, none⟩ (by decide)⟩

/-- Claim C6 (counterexample): `OllamaClient.chat` classifies a raised
timeout as a ConnectionError (the plug-marked chat connection error string),
not as the Timeout kind the claim requires. -/
theorem C6_counterexample :
    OllamaClient.chat [] (Outcome.timeout "boom") =
      "🔌 Chat connection error: boom" ∧
    resultKind (OllamaClient.chat [] (Outcome.timeout "boom")) =
      some ErrorKind.connectionError ∧
    ErrorKind.connectionError ≠ ErrorKind.timeoutError :=
  ⟨rfl, by decide, by decide⟩

/-- Claim C6 (amended): `OllamaClient.chat` classifies a non-200 reply as a
ServerError carrying the status, and every raised transport fault - raised
timeouts included, since chat has no dedicated timeout handler - as a
ConnectionError; timeouts receive no distinct Timeout classification. -/
theorem C6_chat_classification :
    (∀ (msgs : List Msg) (text : String) (st : Nat) (b : ChatBody),
        st ≠ 200 →
        OllamaClient.chat msgs (Outcome.success st text b) =
          "❌ Chat error: " ++ toString st ++ " - " ++ text ∧
        resultKind (OllamaClient.chat msgs (Outcome.success st text b)) =
          some ErrorKind.serverError) ∧
    (∀ (msgs : List Msg) (m : String),
        OllamaClient.chat msgs (Outcome.timeout m) =
          "🔌 Chat connection error: " ++ m ∧
        resultKind (OllamaClient.chat msgs (Outcome.timeout m)) =
          some ErrorKind.connectionError) ∧
    (∀ (msgs : List Msg) (m : String),
        resultKind (OllamaClient.chat msgs (Outcome.fault m)) =
          some ErrorKind.connectionError) := by
  refine ⟨fun msgs text st b h => ?_, fun msgs m => ⟨rfl, resultKind_chat_conn m⟩,
    fun msgs m => resultKind_chat_conn m⟩
  have hb : (st == 200) = false := beq_eq_false_iff_ne.mpr h
  have he : OllamaClient.chat msgs (Outcome.success st text b) =
      "❌ Chat error: " ++ toString st ++ " - " ++ text := by
    simp [OllamaClient.chat, hb]
  exact ⟨he, by rw [he, resultKind_chat_server]⟩

/-- Witness for C6 at a concrete 500 reply. -/
theorem C6_chat_classification_witness :
    (500 : Nat) ≠ 200 ∧
    (OllamaClient.chat [] (Outcome.success 500 "oops" ⟨none⟩) =
      "❌ Chat error: " ++ toString (500 : Nat) ++ " - " ++ "oops" ∧
    resultKind (OllamaClient.chat [] (Outcome.success 500 "oops" ⟨none⟩)) =
      some ErrorKind.serverError) :=
  ⟨by decide, C6_chat_classification.1 [] "oops" 500 ⟨none⟩ (by decide)⟩

/-- Claim C7 (counterexample): on a 200 reply whose body has no `response`
field, `OllamaClient.generate_response` returns the default text
`No response generated`, which carries no failure marker at all - a
Success-shaped value, not the MalformedResponse failure the claim requires. -/
theorem C7_counterexample :
    OllamaClient.generate_response "hello"
        (Outcome.success 200 "" ⟨none, none⟩) = "No response generated" ∧
    resultKind "No response generated" = none :=
  ⟨rfl, by decide⟩

/-- Claim C7 (amended): a 2xx reply whose body lacks the expected field
yields a default success text - `No response generated` for the OllamaClient
generate and chat operations, the empty string for `DeepSeekAPI` - with no
failure classification, rather than a MalformedResponse failure. -/
theorem C7_missing_field_default :
    (∀ (p text : String) (dur : Option Nat),
        OllamaClient.generate_response p
            (Outcome.success 200 text ⟨none, dur⟩) = "No response generated" ∧
        resultKind (OllamaClient.generate_response p
            (Outcome.success 200 text ⟨none, dur⟩)) = none) ∧
    (∀ (msgs : List Msg) (text : String),
        OllamaClient.chat msgs (Outcome.success 200 text ⟨none⟩) =
          "No response generated") ∧
    (∀ (ctx : List Msg) (p text : String) (dur : Option Nat),
        DeepSeekAPI.generate_response ctx p
            (Outcome.success 200 text ⟨none, dur⟩) = "") := by
  exact ⟨fun p text dur => ⟨rfl, by
      show resultKind "No response generated" = none
      decide⟩,
    fun msgs text => rfl,
    fun ctx p text dur => rfl⟩

namespace OllamaClient

/-- Skipping a JSON-undecodable line never changes the streamed pull
processing: the inner handler turns it into a `continue`. -/
lemma process_lines_malformed (l₁ l₂ : List Line) :
    process_lines (l₁ ++ Line.malformed :: l₂) = process_lines (l₁ ++ l₂) := by
  induction l₁ with
  | nil => rfl
  | cons a t ih =>
    cases a with
    | empty => simpa [process_lines] using ih
    | malformed => simpa [process_lines] using ih
    | nonObject => rfl
    | obj st =>
      cases st with
      | none => simpa [process_lines] using ih
      | some s => simp [process_lines, ih]

/-- A line that decodes to a non-dict JSON value raises out of the streaming
loop: the statuses logged so far are kept, the loop does not complete. -/
lemma process_lines_nonObject (l₁ l₂ : List Line)
    (h : (process_lines l₁).2 = true) :
    process_lines (l₁ ++ Line.nonObject :: l₂) = ((process_lines l₁).1, false) := by
  induction l₁ with
  | nil => rfl
  | cons a t ih =>
    cases a with
    | empty =>
      simp only [process_lines] at h ⊢
      exact ih h
    | malformed =>
      simp only [process_lines] at h ⊢
      exact ih h
    | nonObject => simp [process_lines] at h
    | obj st =>
      cases st with
      | none =>
        simp only [process_lines] at h ⊢
        exact ih h
      | some s =>
        cases hs : (s == "") with
        | true =>
          simp only [process_lines, hs] at h ⊢
          exact ih h
        | false =>
          simp only [process_lines, hs] at h ⊢
          simp [ih h]

end OllamaClient

/-- Claim C8 (counterexample): with HTTP 200 and a one-line stream, a line
that decodes to non-object JSON aborts the pull with a final `false` (its
AttributeError is not caught by the JSONDecodeError handler), while a
JSON-undecodable line is skipped and the pull completes with `true`; so not
every malformed status line is skipped without aborting. -/
theorem C8_counterexample :
    OllamaClient.pull_model
        (OllamaClient.PullOutcome.resp 200 [OllamaClient.Line.nonObject] false) =
      ([], false) ∧
    OllamaClient.pull_model
        (OllamaClient.PullOutcome.resp 200 [OllamaClient.Line.malformed] false) =
      ([], true) := by
  exact ⟨rfl, rfl⟩

/-- Claim C8 (amended): `pull_model` returns true only when the request
completed with HTTP 200 and the whole stream processed without a raised
fault; any non-200 status (404 in particular, with zero progress events) and
any transport fault yields false; JSON-undecodable status lines are skipped
without effect; a line decoding to non-object JSON aborts the pull, keeping
the events logged so far and yielding false. -/
theorem C8_pull_model :
    (∀ (o : OllamaClient.PullOutcome), (OllamaClient.pull_model o).2 = true →
        ∃ ls, o = OllamaClient.PullOutcome.resp 200 ls false ∧
          (OllamaClient.process_lines ls).2 = true) ∧
    (∀ (st : Nat) (ls : List OllamaClient.Line) (i : Bool), st ≠ 200 →
        OllamaClient.pull_model (OllamaClient.PullOutcome.resp st ls i) =
          ([], false)) ∧
    (∀ (ls : List OllamaClient.Line),
        OllamaClient.pull_model (OllamaClient.PullOutcome.resp 200 ls false) =
          ((OllamaClient.process_lines ls).1,
            (OllamaClient.process_lines ls).2)) ∧
    (∀ (st : Nat) (l₁ l₂ : List OllamaClient.Line) (i : Bool),
        OllamaClient.pull_model
            (OllamaClient.PullOutcome.resp st
              (l₁ ++ OllamaClient.Line.malformed :: l₂) i) =
          OllamaClient.pull_model
            (OllamaClient.PullOutcome.resp st (l₁ ++ l₂) i)) ∧
    (∀ (ls : List OllamaClient.Line) (i : Bool),
        OllamaClient.pull_model (OllamaClient.PullOutcome.resp 404 ls i) =
          ([], false)) ∧
    (∀ (l₁ l₂ : List OllamaClient.Line) (i : Bool),
        (OllamaClient.process_lines l₁).2 = true →
        OllamaClient.pull_model
            (OllamaClient.PullOutcome.resp 200
              (l₁ ++ OllamaClient.Line.nonObject :: l₂) i) =
          ((OllamaClient.process_lines l₁).1, false)) := by
  refine ⟨?_, ?_, ?_, ?_, fun ls i => rfl, ?_⟩
  · intro o h
    cases o with
    | fault m => simp [OllamaClient.pull_model] at h
    | resp st ls i =>
      simp only [OllamaClient.pull_model] at h
      cases hst : (st == 200) with
      | false => rw [hst] at h; simp at h
      | true =>
        rw [hst] at h
        have hst2 : st = 200 := by simpa using hst
        subst hst2
        simp only [if_true] at h
        cases hpl : (OllamaClient.process_lines ls).2 with
        | false => rw [hpl] at h; simp at h
        | true =>
          rw [hpl] at h
          simp at h
          cases i with
          | false => exact ⟨ls, rfl, hpl⟩
          | true => simp at h
  · intro st ls i h
    have hb : (st == 200) = false := beq_eq_false_iff_ne.mpr h
    simp [OllamaClient.pull_model, hb]
  · intro ls
    simp only [OllamaClient.pull_model]
    cases hpl : (OllamaClient.process_lines ls).2 with
    | false => simp [hpl]
    | true => simp [hpl]
  · intro st l₁ l₂ i
    simp only [OllamaClient.pull_model, OllamaClient.process_lines_malformed]
  · intro l₁ l₂ i h
    simp [OllamaClient.pull_model, OllamaClient.process_lines_nonObject l₁ l₂ h]

/-- Witness for C8 at a concrete non-200 reply. -/
theorem C8_pull_model_witness :
    (500 : Nat) ≠ 200 ∧
    OllamaClient.pull_model (OllamaClient.PullOutcome.resp 500 [] false) =
      ([], false) :=
  ⟨by decide, C8_pull_model.2.1 500 [] false (by decide)⟩

/-- Claim C9 (counterexample): `DeepSeekAPI.check_connection` itself mutates
the stored connectivity flag: starting from a state with
`is_connected = true`, a raised connection fault leaves the state changed. -/
theorem C9_counterexample :
    (DeepSeekAPI.check_connection
        ⟨"http://localhost:11434", "deepseek-r1", true⟩
        (Outcome.fault "connection refused")).1 ≠
      ⟨"http://localhost:11434", "deepseek-r1", true⟩ := by
  decide

/-- Claim C9 (amended): `OllamaClient.check_connection` keeps no stored
connectivity state, but `DeepSeekAPI.check_connection` itself writes
`is_connected` as part of the check - storing the model-membership result on
a 200 reply and `false` on any raised fault - leaving the state untouched
only on the non-200 path. -/
theorem C9_state_mutation :
    (∀ (s : DeepSeekAPI.State) (text : String) (names : List String),
        (DeepSeekAPI.check_connection s (Outcome.success 200 text names)).1 =
          { s with is_connected := names.contains s.model_name }) ∧
    (∀ (s : DeepSeekAPI.State) (m : String),
        (DeepSeekAPI.check_connection s (Outcome.timeout m)).1 =
          { s with is_connected := false } ∧
        (DeepSeekAPI.check_connection s (Outcome.fault m)).1 =
          { s with is_connected := false }) ∧
    (∀ (s : DeepSeekAPI.State) (text : String) (names : List String)
        (st : Nat), st ≠ 200 →
        (DeepSeekAPI.check_connection s (Outcome.success st text names)).1 =
          s) := by
  refine ⟨fun s t n => rfl, fun s m => ⟨rfl, rfl⟩, fun s t n st h => ?_⟩
  have hb : (st == 200) = false := beq_eq_false_iff_ne.mpr h
  simp [DeepSeekAPI.check_connection, hb]

/-- Witness for C9 at a concrete 500 reply. -/
theorem C9_state_mutation_witness :
    (500 : Nat) ≠ 200 ∧
    (DeepSeekAPI.check_connection DeepSeekAPI.initState
        (Outcome.success 500 "" ["deepseek-r1"])).1 = DeepSeekAPI.initState :=
  ⟨by decide,
    C9_state_mutation.2.2 DeepSeekAPI.initState "" ["deepseek-r1"] 500
      (by decide)⟩

/-- Claim C10: on a 200 health reply, `DeepSeekAPI.check_connection` returns
exactly the membership of the configured model name in the returned model
list; a reachable server without the configured model yields `false`, and a
`true` return implies the model is present. -/
theorem C10_model_membership :
    (∀ (s : DeepSeekAPI.State) (text : String) (names : List String),
        (DeepSeekAPI.check_connection s (Outcome.success 200 text names)).2 =
          some (names.contains s.model_name)) ∧
    (∀ (s : DeepSeekAPI.State) (text : String) (names : List String),
        s.model_name ∉ names →
        (DeepSeekAPI.check_connection s (Outcome.success 200 text names)).2 =
          some false) ∧
    (∀ (s : DeepSeekAPI.State) (text : String) (names : List String),
        (DeepSeekAPI.check_connection s (Outcome.success 200 text names)).2 =
          some true → s.model_name ∈ names) := by
  refine ⟨fun s t n => rfl, fun s t n h => ?_, fun s t n h => ?_⟩
  · simpa [DeepSeekAPI.check_connection] using h
  · simpa [DeepSeekAPI.check_connection] using h

/-- Witness for C10: a reachable server listing only another model reads as
not connected. -/
theorem C10_model_membership_witness :
    DeepSeekAPI.initState.model_name ∉ ["llama3"] ∧
    (DeepSeekAPI.check_connection DeepSeekAPI.initState
        (Outcome.success 200 "" ["llama3"])).2 = some false :=
  ⟨by decide,
    C10_model_membership.2.1 DeepSeekAPI.initState "" ["llama3"] (by decide)⟩

end MobileAI
